import Mathlib

/-!
# Startup and routing of the task-list server (`pkg/app/app.go`)

A shallow embedding of `pkg/app/app.go`.  Go code with effects is written in
explicit trace-passing style: every call that leaves the package (environment
lookup, logging, sleeping, connecting, pinging, parsing templates) appends an
`Event` to a trace, and the answers of the outside world are read from a
`World`.  A function that can end the process returns an `Outcome`; a function
that can loop forever takes a bound on the number of loop iterations and
returns the trace so far, with `none` for the outcome, when the bound is used up
while the loop is still running.
-/

namespace app

set_option linter.dupNamespace false

/-! ## Values of the outside world -/

/-- A Go `error` value, carried as its message. -/
abbrev Error := String

/-- The level of a `log/slog` record (`LevelDebug = -4`, `LevelInfo = 0`, `LevelError = 8`). -/
abbrev Level := Int

def LevelDebug : Level := -4
def LevelInfo : Level := 0
def LevelError : Level := 8

/-- The value of `slog.HandlerOptions` as far as `getLogger` sets it. -/
structure HandlerOptions where
  Level : Level
  deriving DecidableEq, Repr

/-- A `*slog.Logger` over a text handler; `w` names the writer of the handler. -/
structure Logger where
  w : String
  opts : HandlerOptions
  deriving DecidableEq, Repr

/-- A `*sql.DB` handle. -/
structure SqlDB where
  handle : Nat
  deriving DecidableEq, Repr

/-- The value of `redis.Options` as far as `getRedisDB` sets it. -/
structure RedisOptions where
  Addr : String
  Password : String
  DB : Nat
  deriving DecidableEq, Repr

/-- A `*redis.Client`, determined by the options it holds. -/
structure RedisClient where
  opts : RedisOptions
  deriving DecidableEq, Repr

/-- The method `init` of `redis.Options` on the fields above: an empty address is
replaced by the default address of the library. -/
def RedisOptions.init (opt : RedisOptions) : RedisOptions :=
  if opt.Addr = "" then { opt with Addr := "localhost:6379" } else opt

/-- The function `redis.NewClient`: it runs `init` on the options it is given and the
client holds the result. -/
def NewClient (opt : RedisOptions) : RedisClient :=
  { opts := opt.init }

/-- A parsed `*template.Template`, determined by the glob pattern it was parsed from. -/
structure Template where
  pattern : String
  deriving DecidableEq, Repr

/-- The constant `time.Second`: one second as a `time.Duration`, counted in nanoseconds. -/
def Second : Nat := 1000000000

/-- Calls that leave the package, in the order they are made. -/
inductive Event where
  | Getenv (key : String)
  | SlogNew (opts : HandlerOptions)
  | Log (level : Level) (msg : String) (attrs : List (String × String))
  | GetPsqlInfoFromEnv
  | CreatePostgresDatabase (psqlInfo : String)
  | Sleep (d : Nat)
  | RedisNewClient (opts : RedisOptions)
  | RedisPing (opts : RedisOptions)
  | ParseGlob (pattern : String)
  | EchoNew
  | ServerStart (address : String)
  | LoggerFatal (err : Error)
  deriving DecidableEq, Repr

/-- How a call ends: it returns a value, the process exits, or it panics. -/
inductive Outcome (α : Type) where
  | Return (a : α)
  | Exit (code : Nat)
  | Panic (err : Error)
  deriving DecidableEq, Repr

/-- The answers of everything outside `pkg/app`.  `CreatePostgresDatabase k` is the
result of the call number `k` (counted from 0) of `db.CreatePostgresDatabase`; Go
functions with a `(value, error)` result give both components.  `Start address` is the
error that `Echo.Start` returns, or `none` when the call serves forever. -/
structure World where
  Getenv : String → String
  GetPsqlInfoFromEnv : (String → String) → String × Option Error
  CreatePostgresDatabase : Nat → String → Option SqlDB × Option Error
  Ping : RedisOptions → String × Option Error
  ParseGlob : String → Option Template × Option Error
  Start : String → Option Error

/-! ## Logging -/

/-- A record is written when the handler's level admits it. -/
def Logger.log (log : Logger) (level : Level) (msg : String)
    (attrs : List (String × String)) : List Event :=
  if log.opts.Level ≤ level then [Event.Log level msg attrs] else []

def Logger.Error (log : Logger) (msg : String) (attrs : List (String × String)) : List Event :=
  log.log LevelError msg attrs

def Logger.Info (log : Logger) (msg : String) (attrs : List (String × String)) : List Event :=
  log.log LevelInfo msg attrs

/-- The function `getLogger`: a text handler on standard output at level debug. -/
def getLogger : List Event × Logger :=
  let slogHandlerOptions : HandlerOptions := { Level := LevelDebug }
  ([Event.SlogNew slogHandlerOptions], { w := "os.Stdout", opts := slogHandlerOptions })

/-! ## `getDB` -/

/-- The duration `time.Duration(reconnectSecondsTime) * time.Second` of `getDB`. -/
def reconnectDuration : Nat :=
  let reconnectSecondsTime := 5
  reconnectSecondsTime * Second

/-- The loop `for err != nil { ... }` of `getDB`.  `calls` is the number of calls of
`db.CreatePostgresDatabase` made so far and `(dbConnection, err)` the result of the
last one; `fuel` bounds the number of iterations.  The result is the trace of the
iterations made and the connection the loop ended with, or `none` when the loop is
still running. -/
def getDBLoop (w : World) (log : Logger) (psqlInfo : String) :
    Nat → Nat → Option SqlDB × Option Error → List Event × Option (Option SqlDB)
  | _, _, (dbConnection, none) => ([], some dbConnection)
  | 0, _, (_, some _) => ([], none)
  | fuel + 1, calls, (_, some err) =>
    let rest :=
      getDBLoop w log psqlInfo fuel (calls + 1) (w.CreatePostgresDatabase calls psqlInfo)
    (log.Error "failed to connect to a database:" [("psqlInfo", psqlInfo), ("err", err)]
        ++ [Event.Sleep reconnectDuration, Event.CreatePostgresDatabase psqlInfo] ++ rest.1,
      rest.2)

/-- The function `getDB`. -/
def getDB (w : World) (log : Logger) (fuel : Nat) :
    List Event × Option (Outcome (Option SqlDB)) :=
  match w.GetPsqlInfoFromEnv w.Getenv with
  | (_, some err) =>
    ([Event.GetPsqlInfoFromEnv] ++ log.Error "failed to get psqlInfo:" [("err", err)],
      some (Outcome.Exit 1))
  | (psqlInfo, none) =>
    match getDBLoop w log psqlInfo fuel 1 (w.CreatePostgresDatabase 0 psqlInfo) with
    | (tr, none) =>
      ([Event.GetPsqlInfoFromEnv, Event.CreatePostgresDatabase psqlInfo] ++ tr, none)
    | (tr, some dbConnection) =>
      ([Event.GetPsqlInfoFromEnv, Event.CreatePostgresDatabase psqlInfo] ++ tr
          ++ log.Info "Connected to Postgresql" [("posqlInfo", psqlInfo)],
        some (Outcome.Return dbConnection))

/-! ## `getRedisDB` -/

/-- The function `getRedisDB`.  `RedisNewClient` records the options passed to
`redis.NewClient`, `RedisPing` the options of the client that is pinged. -/
def getRedisDB (w : World) (log : Logger) : List Event × Outcome RedisClient :=
  let addr := w.Getenv "REDIS_ADDR"
  let password := w.Getenv "REDIS_PASSWORD"
  let opts : RedisOptions := { Addr := addr, Password := password, DB := 0 }
  let rdb : RedisClient := NewClient opts
  let tr := [Event.Getenv "REDIS_ADDR", Event.Getenv "REDIS_PASSWORD",
             Event.RedisNewClient opts, Event.RedisPing rdb.opts]
  match (w.Ping rdb.opts).2 with
  | some err => (tr ++ log.Error "Could not connect to Redis: " [("err", err)], Outcome.Exit 1)
  | none => (tr ++ log.Info "Connected to Redis" [("addr", addr)], Outcome.Return rdb)

/-! ## `newTemplate` -/

/-- The type `Templates`. -/
structure Templates where
  templates : Option Template
  deriving DecidableEq, Repr

/-- The function `newTemplate`; `template.Must` panics on a parse error. -/
def newTemplate (w : World) : List Event × Outcome Templates :=
  match w.ParseGlob "./templates/**/*.html" with
  | (_, some err) => ([Event.ParseGlob "./templates/**/*.html"], Outcome.Panic err)
  | (tmpl, none) => ([Event.ParseGlob "./templates/**/*.html"], Outcome.Return { templates := tmpl })

/-! ## The routing framework

The part of `github.com/labstack/echo/v4` that `getServer` calls.  A route is stored
under the key `method + path`; the middleware of a group is copied into a route when
the route is added, and `Group.Use` also installs the two catch-all routes of the
group under the method `RouteNotFound`. -/

/-- The value returned by `models.GetUserStorage(log, dbCon)`. -/
structure UserStorage where
  log : Logger
  dbCon : Option SqlDB
  deriving DecidableEq, Repr

/-- The value returned by `models.NewSessionStore(rdb)`. -/
structure SessionStore where
  rdb : RedisClient
  deriving DecidableEq, Repr

/-- The middleware values that `getServer` installs, named by their constructors. -/
inductive MiddlewareFunc where
  | NewLoggerMiddleware (log : Logger)
  | echoprometheusNewMiddleware (subsystem : String)
  | AuthorizationCheckMiddleware (sessionStorage : SessionStore) (log : Logger)
  deriving DecidableEq, Repr

/-- The handler values that `getServer` installs, named by their constructors. -/
inductive HandlerFunc where
  | NotFoundHandler
  | StaticDirectoryHandler (fsRoot : String) (disablePathUnescaping : Bool)
  | echoprometheusNewHandler
  | BaseHandler (sessionStorage : SessionStore) (userStorage : UserStorage) (log : Logger)
  | ToggleDoneStatusTaskHandler (sessionStorage : SessionStore) (userStorage : UserStorage)
      (log : Logger)
  | RemoveTaskHandler (sessionStorage : SessionStore) (userStorage : UserStorage) (log : Logger)
  | CreateTaskHandler (sessionStorage : SessionStore) (userStorage : UserStorage) (log : Logger)
  | RegisterPageHandler (log : Logger)
  | RegisterUserHandler (userStorage : UserStorage) (log : Logger)
  | LoginPageHandler (log : Logger)
  | LoginUserHandler (sessionStorage : SessionStore) (userStorage : UserStorage) (log : Logger)
  deriving DecidableEq, Repr

def MethodGet : String := "GET"
def MethodPost : String := "POST"
def MethodPut : String := "PUT"
def MethodDelete : String := "DELETE"

/-- The pseudo method under which the catch-all routes of a group are stored. -/
def RouteNotFound : String := "echo_route_not_found"

/-- One entry of the route table: the handler and the middleware that wraps it. -/
structure Route where
  Method : String
  Path : String
  handler : HandlerFunc
  middleware : List MiddlewareFunc
  deriving DecidableEq, Repr

/-- The server `*echo.Echo`: renderer, server-wide middleware and route table. -/
structure Echo where
  Renderer : Option Templates
  middleware : List MiddlewareFunc
  routes : List Route
  deriving DecidableEq, Repr

/-- A `*echo.Group`: the path it is mounted at and its middleware. -/
structure Group where
  pfx : String
  middleware : List MiddlewareFunc
  deriving DecidableEq, Repr

def echoNew : Echo := { Renderer := none, middleware := [], routes := [] }

def normalizePathSlash (path : String) : String :=
  match path.data with
  | [] => "/"
  | c :: _ => if c = '/' then path else "/" ++ path

/-- The assignment `routes[method+path] = route` on the route table. -/
def setRoute : List Route → Route → List Route
  | [], route => [route]
  | r :: rs, route =>
    if r.Method ++ r.Path = route.Method ++ route.Path then route :: rs
    else r :: setRoute rs route

def Echo.add (e : Echo) (method path : String) (handler : HandlerFunc)
    (middlewares : List MiddlewareFunc) : Echo :=
  let route : Route :=
    { Method := method, Path := normalizePathSlash path, handler := handler,
      middleware := middlewares }
  { e with routes := setRoute e.routes route }

def Echo.Use (e : Echo) (middleware : List MiddlewareFunc) : Echo :=
  { e with middleware := e.middleware ++ middleware }

def Group.Add (e : Echo) (g : Group) (method path : String) (handler : HandlerFunc)
    (middleware : List MiddlewareFunc) : Echo :=
  e.add method (g.pfx ++ path) handler (g.middleware ++ middleware)

def Group.GET (e : Echo) (g : Group) (path : String) (h : HandlerFunc) : Echo :=
  Group.Add e g MethodGet path h []

def Group.POST (e : Echo) (g : Group) (path : String) (h : HandlerFunc) : Echo :=
  Group.Add e g MethodPost path h []

def Group.PUT (e : Echo) (g : Group) (path : String) (h : HandlerFunc) : Echo :=
  Group.Add e g MethodPut path h []

def Group.DELETE (e : Echo) (g : Group) (path : String) (h : HandlerFunc) : Echo :=
  Group.Add e g MethodDelete path h []

def Group.RouteNotFound (e : Echo) (g : Group) (path : String) (h : HandlerFunc) : Echo :=
  Group.Add e g app.RouteNotFound path h []

def Group.Use (e : Echo) (g : Group) (middleware : List MiddlewareFunc) : Echo × Group :=
  let g1 : Group := { g with middleware := g.middleware ++ middleware }
  if g1.middleware.length = 0 then (e, g1)
  else
    let e1 := Group.RouteNotFound e g1 "" HandlerFunc.NotFoundHandler
    (Group.RouteNotFound e1 g1 "/*" HandlerFunc.NotFoundHandler, g1)

def Echo.Group (e : Echo) (pfx : String) (m : List MiddlewareFunc) : Echo × Group :=
  Group.Use e { pfx := pfx, middleware := [] } m

def Group.Group (e : Echo) (g : app.Group) (pfx : String) (middleware : List MiddlewareFunc) :
    Echo × app.Group :=
  Echo.Group e (g.pfx ++ pfx) (g.middleware ++ middleware)

def Group.Static (e : Echo) (g : app.Group) (pathPrefix fsRoot : String) : Echo :=
  Group.Add e g MethodGet (pathPrefix ++ "*") (HandlerFunc.StaticDirectoryHandler fsRoot false) []

/-! ## `getServer` -/

/-- The server and the two groups at the end of `getServer`. -/
structure ServerSetup where
  server : Echo
  baseGroup : Group
  authRequiredBaseGroup : Group
  deriving DecidableEq, Repr

/-- The body of `getServer`, keeping its two local groups. -/
def getServerSetup (templates : Templates) (log : Logger) (dbCon : Option SqlDB)
    (rdb : RedisClient) : ServerSetup :=
  let server := echoNew
  let server := { server with Renderer := some templates }
  let server := server.Use [MiddlewareFunc.NewLoggerMiddleware log]
  let userStorage : UserStorage := { log := log, dbCon := dbCon }
  let sessionStorage : SessionStore := { rdb := rdb }
  let (server, baseGroup) := server.Group "" []
  let server := Group.Static server baseGroup "/assets" "assets"
  let (server, baseGroup) :=
    Group.Use server baseGroup [MiddlewareFunc.echoprometheusNewMiddleware "myapp"]
  let server := Group.GET server baseGroup "/metrics" HandlerFunc.echoprometheusNewHandler
  let (server, authRequiredBaseGroup) := Group.Group server baseGroup "" []
  let (server, authRequiredBaseGroup) :=
    Group.Use server authRequiredBaseGroup
      [MiddlewareFunc.AuthorizationCheckMiddleware sessionStorage log]
  let server := Group.GET server authRequiredBaseGroup "/"
    (HandlerFunc.BaseHandler sessionStorage userStorage log)
  let server := Group.PUT server authRequiredBaseGroup "/task/:id"
    (HandlerFunc.ToggleDoneStatusTaskHandler sessionStorage userStorage log)
  let server := Group.DELETE server authRequiredBaseGroup "/task/:id"
    (HandlerFunc.RemoveTaskHandler sessionStorage userStorage log)
  let server := Group.POST server authRequiredBaseGroup "/tasks"
    (HandlerFunc.CreateTaskHandler sessionStorage userStorage log)
  let server := Group.GET server baseGroup "/register" (HandlerFunc.RegisterPageHandler log)
  let server := Group.POST server baseGroup "/register"
    (HandlerFunc.RegisterUserHandler userStorage log)
  let server := Group.GET server baseGroup "/login" (HandlerFunc.LoginPageHandler log)
  let server := Group.POST server baseGroup "/login"
    (HandlerFunc.LoginUserHandler sessionStorage userStorage log)
  { server := server, baseGroup := baseGroup, authRequiredBaseGroup := authRequiredBaseGroup }

/-- The function `getServer`. -/
def getServer (templates : Templates) (log : Logger) (dbCon : Option SqlDB)
    (rdb : RedisClient) : Echo :=
  (getServerSetup templates log dbCon rdb).server

/-- The middleware around the handler of a route when a request is served: the
server-wide middleware, then the middleware stored with the route. -/
def Echo.chain (e : Echo) (r : Route) : List MiddlewareFunc :=
  e.middleware ++ r.middleware

/-! ## `NewApp` and `Run` -/

/-- The type `App`. -/
structure App where
  log : Logger
  db : Option SqlDB
  rdb : RedisClient
  server : Echo
  deriving DecidableEq, Repr

/-- A call that always ends, as a call that may still be running. -/
def ended {α : Type} (call : List Event × Outcome α) : List Event × Option (Outcome α) :=
  (call.1, some call.2)

/-- Sequencing of two calls: the second runs only when the first returns. -/
def andThen {α β : Type} (first : List Event × Option (Outcome α))
    (rest : α → List Event × Option (Outcome β)) : List Event × Option (Outcome β) :=
  match first with
  | (tr, some (Outcome.Return a)) => (tr ++ (rest a).1, (rest a).2)
  | (tr, some (Outcome.Exit code)) => (tr, some (Outcome.Exit code))
  | (tr, some (Outcome.Panic err)) => (tr, some (Outcome.Panic err))
  | (tr, none) => (tr, none)

/-- The function `NewApp`; `fuel` bounds the iterations of the loop of `getDB`.
`getServer` only builds values in memory; its call of `echo.New` is the event `EchoNew`. -/
def NewApp (w : World) (fuel : Nat) : List Event × Option (Outcome (App × Option Error)) :=
  let (tr0, log) := getLogger
  andThen (tr0 ++ (getDB w log fuel).1, (getDB w log fuel).2) fun dbCon =>
    andThen (ended (getRedisDB w log)) fun rdb =>
      andThen (ended (newTemplate w)) fun templates =>
        let server := getServer templates log dbCon rdb
        ([Event.EchoNew],
          some (Outcome.Return
            ({ log := log, db := dbCon, rdb := rdb, server := server }, none)))

/-- The method `Run`: the trace, and how the call ends when it ends (`Logger.Fatal`
exits with status 1 once `Start` has returned). -/
def App.Run (w : World) (_app : App) : List Event × Option (Outcome Unit) :=
  let appPort := w.Getenv "APP_PORT"
  let tr := [Event.Getenv "APP_PORT", Event.ServerStart (":" ++ appPort)]
  match w.Start (":" ++ appPort) with
  | none => (tr, none)
  | some err => (tr ++ [Event.LoggerFatal err], some (Outcome.Exit 1))

/-! ## Serving a request through a route -/

/-- One session held by the key-value store. -/
structure SessionEntry where
  token : String
  userID : Nat
  expiresAt : Nat
  deriving DecidableEq, Repr

/-- The sessions held by the key-value store and the current time. -/
structure KeyValueStore where
  entries : List SessionEntry
  now : Nat
  deriving DecidableEq, Repr

/-- Modelled from the spec: `Resolve` of the session store (`pkg/models` lies outside
`pkg/app`).  It gives the user of a token, and fails with InvalidSession
(`none`) when the token is absent or expired. -/
def Resolve (_s : SessionStore) (kv : KeyValueStore) (token : String) : Option Nat :=
  match kv.entries.find? (fun entry => entry.token = token) with
  | none => none
  | some entry => if kv.now < entry.expiresAt then some entry.userID else none

/-- The request as the authorization flow sees it: the session cookie, if present, and
the user identity attached to the request-processing context. -/
structure Context where
  cookie : Option String
  user : Option Nat
  deriving DecidableEq, Repr

/-- The response to a request: a redirect, or content with a status. -/
inductive Response where
  | Redirect (location : String)
  | Content (status : Nat) (body : String)
  deriving DecidableEq, Repr

/-- What a middleware does with a request: it answers the request itself, or it calls
`next` on a context and passes the response of `next` through `after`. -/
inductive Decision where
  | Respond (r : Response)
  | Next (c : Context) (after : Response → Response)

/-- Calls made while a request is served: a middleware is entered, the handler of the
route is invoked. -/
inductive ServeEvent where
  | Middleware (m : MiddlewareFunc) (c : Context)
  | Handler (h : HandlerFunc) (c : Context)
  deriving DecidableEq, Repr

/-- Modelled from the spec: `handlers.AuthorizationCheckMiddleware` (`pkg/handlers` lies
outside `pkg/app`).  Cookie present, then session resolves; a failure of either check
answers with a redirect to login and does not call `next`, success calls `next` with the
user attached to the context. -/
def AuthorizationCheckMiddleware (sessionStorage : SessionStore) (kv : KeyValueStore)
    (c : Context) : Decision :=
  match c.cookie with
  | none => Decision.Respond (Response.Redirect "/login")
  | some token =>
    match Resolve sessionStorage kv token with
    | none => Decision.Respond (Response.Redirect "/login")
    | some userID => Decision.Next { c with user := some userID } id

/-- The behaviour of a middleware value: the authorization check as above, any other
middleware as given by `other`. -/
def MiddlewareFunc.run (other : MiddlewareFunc → Context → Decision)
    (kv : KeyValueStore) : MiddlewareFunc → Context → Decision
  | MiddlewareFunc.AuthorizationCheckMiddleware sessionStorage _ =>
    app.AuthorizationCheckMiddleware sessionStorage kv
  | m => other m

/-- The handler `h` under its middleware (the function `applyMiddleware` of the
framework, the first middleware outermost), run on a request: the calls made and the
response.  The handler is invoked when every middleware has called `next`. -/
def applyMiddleware (run : MiddlewareFunc → Context → Decision)
    (impl : HandlerFunc → Context → Response) (h : HandlerFunc) :
    List MiddlewareFunc → Context → List ServeEvent × Response
  | [], c => ([ServeEvent.Handler h c], impl h c)
  | m :: ms, c =>
    match run m c with
    | Decision.Respond r => ([ServeEvent.Middleware m c], r)
    | Decision.Next c1 after =>
      let rest := applyMiddleware run impl h ms c1
      (ServeEvent.Middleware m c :: rest.1, after rest.2)

/-- Serving a request that was routed to `r`. -/
def Echo.serve (e : Echo) (other : MiddlewareFunc → Context → Decision)
    (impl : HandlerFunc → Context → Response) (kv : KeyValueStore) (r : Route)
    (c : Context) : List ServeEvent × Response :=
  applyMiddleware (MiddlewareFunc.run other kv) impl r.handler (e.chain r) c

/-! ## Observations on traces -/

/-- The event is a call of `db.CreatePostgresDatabase`. -/
def Event.isCreatePostgresDatabase : Event → Bool
  | Event.CreatePostgresDatabase _ => true
  | _ => false

/-- The event is a call of `time.Sleep`. -/
def Event.isSleep : Event → Bool
  | Event.Sleep _ => true
  | _ => false

/-- The event is a connection attempt or a sleep. -/
def Event.isAttemptOrSleep (ev : Event) : Bool :=
  ev.isCreatePostgresDatabase || ev.isSleep

/-- The event is a call of `Ping` on a Redis client. -/
def Event.isRedisPing : Event → Bool
  | Event.RedisPing _ => true
  | _ => false

/-! ## Example worlds -/

/-- A world whose environment names port 8080 and a local Redis, in which Postgres
refuses the first two connection attempts and accepts every later one. -/
def worldThirdAttempt : World where
  Getenv := fun key =>
    if key = "APP_PORT" then "8080"
    else if key = "REDIS_ADDR" then "localhost:6379"
    else if key = "REDIS_PASSWORD" then "secret"
    else ""
  GetPsqlInfoFromEnv := fun _ => ("host=db port=5432", none)
  CreatePostgresDatabase := fun k _ =>
    if k < 2 then (none, some "connection refused") else (some ⟨k⟩, none)
  Ping := fun _ => ("PONG", none)
  ParseGlob := fun pattern => (some ⟨pattern⟩, none)
  Start := fun _ => some "address already in use"

/-- A world in which the Postgres connection parameters are missing from the environment. -/
def worldNoPsqlInfo : World :=
  { worldThirdAttempt with GetPsqlInfoFromEnv := fun _ => ("", some "POSTGRES_HOST is not set") }

/-- A world in which Redis does not answer the ping. -/
def worldNoRedis : World :=
  { worldThirdAttempt with Ping := fun _ => ("", some "dial tcp: connection refused") }

/-- A world with an empty environment in which every outside call succeeds at once. -/
def worldEmptyEnvironment : World where
  Getenv := fun _ => ""
  GetPsqlInfoFromEnv := fun _ => ("", none)
  CreatePostgresDatabase := fun k _ => (some ⟨k⟩, none)
  Ping := fun _ => ("PONG", none)
  ParseGlob := fun pattern => (some ⟨pattern⟩, none)
  Start := fun _ => none

/-- A world in which Postgres refuses every connection attempt. -/
def worldNoPostgres : World :=
  { worldThirdAttempt with
    CreatePostgresDatabase := fun _ _ => (none, some "connection refused") }

/-- A key-value store at time 100 holding one session that expired at time 50 and one
that is valid until time 500. -/
def storeWithExpiredSession : KeyValueStore where
  entries := [⟨"old-token", 7, 50⟩, ⟨"live-token", 8, 500⟩]
  now := 100

/-! ## The route table of `getServer` -/

theorem getServer_routes (templates : Templates) (log : Logger) (dbCon : Option SqlDB)
    (rdb : RedisClient) :
    (getServer templates log dbCon rdb).routes =
      [ ⟨"GET", "/assets*", HandlerFunc.StaticDirectoryHandler "assets" false, []⟩,
        ⟨"echo_route_not_found", "/", HandlerFunc.NotFoundHandler,
          [MiddlewareFunc.echoprometheusNewMiddleware "myapp",
           MiddlewareFunc.AuthorizationCheckMiddleware ⟨rdb⟩ log]⟩,
        ⟨"echo_route_not_found", "/*", HandlerFunc.NotFoundHandler,
          [MiddlewareFunc.echoprometheusNewMiddleware "myapp",
           MiddlewareFunc.AuthorizationCheckMiddleware ⟨rdb⟩ log]⟩,
        ⟨"GET", "/metrics", HandlerFunc.echoprometheusNewHandler,
          [MiddlewareFunc.echoprometheusNewMiddleware "myapp"]⟩,
        ⟨"GET", "/", HandlerFunc.BaseHandler ⟨rdb⟩ ⟨log, dbCon⟩ log,
          [MiddlewareFunc.echoprometheusNewMiddleware "myapp",
           MiddlewareFunc.AuthorizationCheckMiddleware ⟨rdb⟩ log]⟩,
        ⟨"PUT", "/task/:id", HandlerFunc.ToggleDoneStatusTaskHandler ⟨rdb⟩ ⟨log, dbCon⟩ log,
          [MiddlewareFunc.echoprometheusNewMiddleware "myapp",
           MiddlewareFunc.AuthorizationCheckMiddleware ⟨rdb⟩ log]⟩,
        ⟨"DELETE", "/task/:id", HandlerFunc.RemoveTaskHandler ⟨rdb⟩ ⟨log, dbCon⟩ log,
          [MiddlewareFunc.echoprometheusNewMiddleware "myapp",
           MiddlewareFunc.AuthorizationCheckMiddleware ⟨rdb⟩ log]⟩,
        ⟨"POST", "/tasks", HandlerFunc.CreateTaskHandler ⟨rdb⟩ ⟨log, dbCon⟩ log,
          [MiddlewareFunc.echoprometheusNewMiddleware "myapp",
           MiddlewareFunc.AuthorizationCheckMiddleware ⟨rdb⟩ log]⟩,
        ⟨"GET", "/register", HandlerFunc.RegisterPageHandler log,
          [MiddlewareFunc.echoprometheusNewMiddleware "myapp"]⟩,
        ⟨"POST", "/register", HandlerFunc.RegisterUserHandler ⟨log, dbCon⟩ log,
          [MiddlewareFunc.echoprometheusNewMiddleware "myapp"]⟩,
        ⟨"GET", "/login", HandlerFunc.LoginPageHandler log,
          [MiddlewareFunc.echoprometheusNewMiddleware "myapp"]⟩,
        ⟨"POST", "/login", HandlerFunc.LoginUserHandler ⟨rdb⟩ ⟨log, dbCon⟩ log,
          [MiddlewareFunc.echoprometheusNewMiddleware "myapp"]⟩ ] := by
  rfl

theorem getServer_middleware (templates : Templates) (log : Logger) (dbCon : Option SqlDB)
    (rdb : RedisClient) :
    (getServer templates log dbCon rdb).middleware = [MiddlewareFunc.NewLoggerMiddleware log] := by
  rfl

theorem getServerSetup_baseGroup (templates : Templates) (log : Logger) (dbCon : Option SqlDB)
    (rdb : RedisClient) :
    (getServerSetup templates log dbCon rdb).baseGroup =
      ⟨"", [MiddlewareFunc.echoprometheusNewMiddleware "myapp"]⟩ := by
  rfl

theorem getServerSetup_authRequiredBaseGroup (templates : Templates) (log : Logger)
    (dbCon : Option SqlDB) (rdb : RedisClient) :
    (getServerSetup templates log dbCon rdb).authRequiredBaseGroup =
      ⟨"", [MiddlewareFunc.echoprometheusNewMiddleware "myapp",
            MiddlewareFunc.AuthorizationCheckMiddleware ⟨rdb⟩ log]⟩ := by
  rfl

/-- C1: each of the four task routes (GET /, PUT /task/:id, DELETE /task/:id,
POST /tasks) is in the route table of `getServer`, and every route of the table with
one of these method and path pairs carries the middleware of the group
`authRequiredBaseGroup`, which holds the authorization middleware, so the
authorization middleware is in the chain that wraps the handler of the route. -/
theorem task_routes_behind_authorization (templates : Templates) (log : Logger)
    (dbCon : Option SqlDB) (rdb : RedisClient) :
    (∀ mp ∈ [("GET", "/"), ("PUT", "/task/:id"), ("DELETE", "/task/:id"), ("POST", "/tasks")],
      ∃ r ∈ (getServer templates log dbCon rdb).routes, (r.Method, r.Path) = mp) ∧
    ∀ r ∈ (getServer templates log dbCon rdb).routes,
      (r.Method, r.Path) ∈
          [("GET", "/"), ("PUT", "/task/:id"), ("DELETE", "/task/:id"), ("POST", "/tasks")] →
        r.middleware = (getServerSetup templates log dbCon rdb).authRequiredBaseGroup.middleware ∧
        MiddlewareFunc.AuthorizationCheckMiddleware ⟨rdb⟩ log ∈
          (getServerSetup templates log dbCon rdb).authRequiredBaseGroup.middleware ∧
        MiddlewareFunc.AuthorizationCheckMiddleware ⟨rdb⟩ log ∈
          (getServer templates log dbCon rdb).chain r := by
  simp only [getServer_routes, getServerSetup_authRequiredBaseGroup, Echo.chain,
    getServer_middleware]
  refine ⟨?_, ?_⟩
  · intro mp hmp
    simp only [List.mem_cons, List.mem_singleton, List.not_mem_nil, or_false] at hmp
    rcases hmp with rfl | rfl | rfl | rfl <;> simp
  · intro r hr hmp
    simp only [List.mem_cons, List.mem_singleton, List.not_mem_nil, or_false] at hr
    rcases hr with rfl | rfl | rfl | rfl | rfl | rfl | rfl | rfl | rfl | rfl | rfl | rfl <;>
      first
        | (simp; done)
        | (simp at hmp)

/-- Witness of C1 at the route GET / of a server built over a Redis client for
`localhost:6379`. -/
theorem task_routes_behind_authorization_witness :
    MiddlewareFunc.AuthorizationCheckMiddleware ⟨⟨⟨"localhost:6379", "", 0⟩⟩⟩ getLogger.2 ∈
      (getServer ⟨none⟩ getLogger.2 (some ⟨1⟩) ⟨⟨"localhost:6379", "", 0⟩⟩).chain
        ⟨"GET", "/",
          HandlerFunc.BaseHandler ⟨⟨⟨"localhost:6379", "", 0⟩⟩⟩ ⟨getLogger.2, some ⟨1⟩⟩
            getLogger.2,
          [MiddlewareFunc.echoprometheusNewMiddleware "myapp",
           MiddlewareFunc.AuthorizationCheckMiddleware ⟨⟨⟨"localhost:6379", "", 0⟩⟩⟩
             getLogger.2]⟩ :=
  ((task_routes_behind_authorization ⟨none⟩ getLogger.2 (some ⟨1⟩)
      ⟨⟨"localhost:6379", "", 0⟩⟩).2 _
    (by simp [getServer_routes]) (by simp)).2.2

/-- C2: each of the four routes GET /register, POST /register, GET /login and
POST /login is in the route table of `getServer`; every route of the table with one of
these method and path pairs carries the middleware of the base group, and no
authorization middleware is in its chain. -/
theorem register_login_routes_without_authorization (templates : Templates) (log : Logger)
    (dbCon : Option SqlDB) (rdb : RedisClient) :
    (∀ mp ∈ [("GET", "/register"), ("POST", "/register"), ("GET", "/login"), ("POST", "/login")],
      ∃ r ∈ (getServer templates log dbCon rdb).routes, (r.Method, r.Path) = mp) ∧
    ∀ r ∈ (getServer templates log dbCon rdb).routes,
      (r.Method, r.Path) ∈
          [("GET", "/register"), ("POST", "/register"), ("GET", "/login"), ("POST", "/login")] →
        r.middleware = (getServerSetup templates log dbCon rdb).baseGroup.middleware ∧
        ∀ (sessionStorage : SessionStore) (l : Logger),
          MiddlewareFunc.AuthorizationCheckMiddleware sessionStorage l ∉
            (getServer templates log dbCon rdb).chain r := by
  simp only [getServer_routes, getServerSetup_baseGroup, Echo.chain, getServer_middleware]
  refine ⟨?_, ?_⟩
  · intro mp hmp
    simp only [List.mem_cons, List.mem_singleton, List.not_mem_nil, or_false] at hmp
    rcases hmp with rfl | rfl | rfl | rfl <;> simp
  · intro r hr hmp
    simp only [List.mem_cons, List.mem_singleton, List.not_mem_nil, or_false] at hr
    rcases hr with rfl | rfl | rfl | rfl | rfl | rfl | rfl | rfl | rfl | rfl | rfl | rfl <;>
      first
        | (simp; done)
        | (simp at hmp)

/-- Witness of C2 at the route POST /login. -/
theorem register_login_routes_without_authorization_witness :
    MiddlewareFunc.AuthorizationCheckMiddleware ⟨⟨⟨"localhost:6379", "", 0⟩⟩⟩ getLogger.2 ∉
      (getServer ⟨none⟩ getLogger.2 (some ⟨1⟩) ⟨⟨"localhost:6379", "", 0⟩⟩).chain
        ⟨"POST", "/login",
          HandlerFunc.LoginUserHandler ⟨⟨⟨"localhost:6379", "", 0⟩⟩⟩ ⟨getLogger.2, some ⟨1⟩⟩
            getLogger.2,
          [MiddlewareFunc.echoprometheusNewMiddleware "myapp"]⟩ :=
  ((register_login_routes_without_authorization ⟨none⟩ getLogger.2 (some ⟨1⟩)
      ⟨⟨"localhost:6379", "", 0⟩⟩).2 _
    (by simp [getServer_routes]) (by simp)).2 _ _

/-- C3: GET /metrics and the static mount of `/assets` (the route GET /assets*) are in
the route table of `getServer`, registered on the base group (mounted at the empty
path): the metrics route carries the middleware of the base group, the static route
was added before the base group had any middleware, and no authorization middleware is
in the chain of either. -/
theorem metrics_and_assets_without_authorization (templates : Templates) (log : Logger)
    (dbCon : Option SqlDB) (rdb : RedisClient) :
    (∀ mp ∈ [("GET", "/metrics"), ("GET", "/assets*")],
      ∃ r ∈ (getServer templates log dbCon rdb).routes, (r.Method, r.Path) = mp) ∧
    ∀ r ∈ (getServer templates log dbCon rdb).routes,
      ((r.Method, r.Path) = ("GET", "/metrics") →
        r.handler = HandlerFunc.echoprometheusNewHandler ∧
        r.Path = (getServerSetup templates log dbCon rdb).baseGroup.pfx ++ "/metrics" ∧
        r.middleware = (getServerSetup templates log dbCon rdb).baseGroup.middleware ∧
        ∀ (sessionStorage : SessionStore) (l : Logger),
          MiddlewareFunc.AuthorizationCheckMiddleware sessionStorage l ∉
            (getServer templates log dbCon rdb).chain r) ∧
      ((r.Method, r.Path) = ("GET", "/assets*") →
        r.handler = HandlerFunc.StaticDirectoryHandler "assets" false ∧
        r.Path = (getServerSetup templates log dbCon rdb).baseGroup.pfx ++ "/assets" ++ "*" ∧
        r.middleware = [] ∧
        ∀ (sessionStorage : SessionStore) (l : Logger),
          MiddlewareFunc.AuthorizationCheckMiddleware sessionStorage l ∉
            (getServer templates log dbCon rdb).chain r) := by
  simp only [getServer_routes, getServerSetup_baseGroup, Echo.chain, getServer_middleware]
  refine ⟨?_, ?_⟩
  · intro mp hmp
    simp only [List.mem_cons, List.mem_singleton, List.not_mem_nil, or_false] at hmp
    rcases hmp with rfl | rfl <;> simp
  · intro r hr
    simp only [List.mem_cons, List.mem_singleton, List.not_mem_nil, or_false] at hr
    rcases hr with rfl | rfl | rfl | rfl | rfl | rfl | rfl | rfl | rfl | rfl | rfl | rfl <;>
      refine ⟨fun hmp => ?_, fun hmp => ?_⟩ <;>
      first
        | (refine ⟨rfl, by decide, rfl, ?_⟩; simp)
        | (simp at hmp)

/-- Witness of C3 at the static route. -/
theorem metrics_and_assets_without_authorization_witness :
    MiddlewareFunc.AuthorizationCheckMiddleware ⟨⟨⟨"localhost:6379", "", 0⟩⟩⟩ getLogger.2 ∉
      (getServer ⟨none⟩ getLogger.2 (some ⟨1⟩) ⟨⟨"localhost:6379", "", 0⟩⟩).chain
        ⟨"GET", "/assets*", HandlerFunc.StaticDirectoryHandler "assets" false, []⟩ :=
  (((metrics_and_assets_without_authorization ⟨none⟩ getLogger.2 (some ⟨1⟩)
      ⟨⟨"localhost:6379", "", 0⟩⟩).2 _
    (by simp [getServer_routes])).2 rfl).2.2.2 _ _

/-- C4: the routes of the table of `getServer` under an HTTP method are exactly GET
/assets* (the static mount at `/assets`), GET /metrics, GET /, PUT /task/:id,
DELETE /task/:id, POST /tasks, GET /register, POST /register, GET /login and
POST /login; the only other entries are the two catch-all not-found routes that
`Group.Use` installs under the method `RouteNotFound`, and no handler of the table is
other than the handlers `getServer` names, so there is no route for logout or session
revocation. -/
theorem getServer_registers_exactly (templates : Templates) (log : Logger)
    (dbCon : Option SqlDB) (rdb : RedisClient) :
    (((getServer templates log dbCon rdb).routes.filter
        (fun r => decide (r.Method ≠ RouteNotFound))).map (fun r => (r.Method, r.Path)) =
      [("GET", "/assets*"), ("GET", "/metrics"), ("GET", "/"), ("PUT", "/task/:id"),
       ("DELETE", "/task/:id"), ("POST", "/tasks"), ("GET", "/register"),
       ("POST", "/register"), ("GET", "/login"), ("POST", "/login")]) ∧
    (((getServer templates log dbCon rdb).routes.filter
        (fun r => decide (r.Method = RouteNotFound))).map
          (fun r => (r.Method, r.Path, r.handler)) =
      [(RouteNotFound, "/", HandlerFunc.NotFoundHandler),
       (RouteNotFound, "/*", HandlerFunc.NotFoundHandler)]) ∧
    ((getServer templates log dbCon rdb).routes.map (fun r => r.handler) =
      [HandlerFunc.StaticDirectoryHandler "assets" false,
       HandlerFunc.NotFoundHandler, HandlerFunc.NotFoundHandler,
       HandlerFunc.echoprometheusNewHandler,
       HandlerFunc.BaseHandler ⟨rdb⟩ ⟨log, dbCon⟩ log,
       HandlerFunc.ToggleDoneStatusTaskHandler ⟨rdb⟩ ⟨log, dbCon⟩ log,
       HandlerFunc.RemoveTaskHandler ⟨rdb⟩ ⟨log, dbCon⟩ log,
       HandlerFunc.CreateTaskHandler ⟨rdb⟩ ⟨log, dbCon⟩ log,
       HandlerFunc.RegisterPageHandler log,
       HandlerFunc.RegisterUserHandler ⟨log, dbCon⟩ log,
       HandlerFunc.LoginPageHandler log,
       HandlerFunc.LoginUserHandler ⟨rdb⟩ ⟨log, dbCon⟩ log]) := by
  rw [getServer_routes]
  refine ⟨?_, ?_, ?_⟩ <;> rfl


/-! ## The bootstrap of the Postgres connection -/

theorem log_filter_isCreatePostgresDatabase (log : Logger) (level : Level) (msg : String)
    (attrs : List (String × String)) :
    (log.log level msg attrs).filter Event.isCreatePostgresDatabase = [] := by
  unfold Logger.log
  split <;> rfl

theorem log_filter_isSleep (log : Logger) (level : Level) (msg : String)
    (attrs : List (String × String)) :
    (log.log level msg attrs).filter Event.isSleep = [] := by
  unfold Logger.log
  split <;> rfl

theorem log_filter_attempt_or_sleep (log : Logger) (level : Level) (msg : String)
    (attrs : List (String × String)) :
    (log.log level msg attrs).filter Event.isAttemptOrSleep = [] := by
  unfold Logger.log
  split <;> rfl

/-- The loop of `getDB` after call number `c`: when the calls `c, ..., c + d - 1` fail
and call `c + d` succeeds, `d` iterations end the loop with the connection of call
`c + d`, each iteration sleeping once and then connecting once. -/
theorem getDBLoop_connects (w : World) (log : Logger) (psqlInfo : String) :
    ∀ (d fuel c : Nat),
      (∀ k, c ≤ k → k < c + d → (w.CreatePostgresDatabase k psqlInfo).2 ≠ none) →
      (w.CreatePostgresDatabase (c + d) psqlInfo).2 = none →
      d ≤ fuel →
      ∃ tr, getDBLoop w log psqlInfo fuel (c + 1) (w.CreatePostgresDatabase c psqlInfo) =
          (tr, some (w.CreatePostgresDatabase (c + d) psqlInfo).1) ∧
        tr.filter Event.isCreatePostgresDatabase =
          List.replicate d (Event.CreatePostgresDatabase psqlInfo) ∧
        tr.filter Event.isSleep = List.replicate d (Event.Sleep reconnectDuration) ∧
        tr.filter Event.isAttemptOrSleep =
          (List.replicate d
            [Event.Sleep reconnectDuration, Event.CreatePostgresDatabase psqlInfo]).flatten := by
  intro d
  induction d with
  | zero =>
    intro fuel c _ hok _
    refine ⟨[], ?_, rfl, rfl, rfl⟩
    rcases hres : w.CreatePostgresDatabase c psqlInfo with ⟨dbConnection, err⟩
    have herr : err = none := by simpa [hres] using hok
    subst herr
    simp [getDBLoop, hres]
  | succ d ih =>
    intro fuel c hfail hok hfuel
    obtain ⟨fuel, rfl⟩ : ∃ f, fuel = f + 1 := ⟨fuel - 1, by omega⟩
    have hc := hfail c (Nat.le_refl c) (by omega)
    rcases hres : w.CreatePostgresDatabase c psqlInfo with ⟨dbConnection, err⟩
    rw [hres] at hc
    cases err with
    | none => exact absurd rfl hc
    | some err =>
      obtain ⟨tr, htr, hcreate, hsleep, hboth⟩ :=
        ih fuel (c + 1) (fun k hk1 hk2 => hfail k (by omega) (by omega))
          (by rw [show c + 1 + d = c + (d + 1) by omega]; exact hok) (by omega)
      rw [show c + 1 + d = c + (d + 1) by omega] at htr
      refine ⟨log.Error "failed to connect to a database:" [("psqlInfo", psqlInfo), ("err", err)]
          ++ [Event.Sleep reconnectDuration, Event.CreatePostgresDatabase psqlInfo] ++ tr,
        ?_, ?_, ?_, ?_⟩
      · simp only [getDBLoop, htr]
      · simp [List.filter_append, Logger.Error, log_filter_isCreatePostgresDatabase, hcreate,
          Event.isCreatePostgresDatabase, List.replicate_succ]
      · simp [List.filter_append, Logger.Error, log_filter_isSleep, hsleep,
          Event.isSleep, List.replicate_succ]
      · have h1 : Event.isAttemptOrSleep (Event.Sleep reconnectDuration) = true := rfl
        have h2 : Event.isAttemptOrSleep (Event.CreatePostgresDatabase psqlInfo) = true := rfl
        simp [List.filter_append, Logger.Error, log_filter_attempt_or_sleep, hboth, h1, h2,
          List.replicate_succ]

/-- C6: when `db.GetPsqlInfoFromEnv` succeeds with `psqlInfo` and the first
successful call of `db.CreatePostgresDatabase` is attempt `n` (`n ≥ 1`), `getDB`
returns (given at least `n - 1` loop iterations) the connection of attempt `n`, having
made exactly `n` connection attempts, all with `psqlInfo`, and slept 5 seconds exactly
`n - 1` times, once after each failed attempt and before the next one. -/
theorem getDB_retries_until_connected (w : World) (log : Logger) (psqlInfo : String)
    (n fuel : Nat)
    (hinfo : w.GetPsqlInfoFromEnv w.Getenv = (psqlInfo, none))
    (hn : 1 ≤ n)
    (hfail : ∀ k, k < n - 1 → (w.CreatePostgresDatabase k psqlInfo).2 ≠ none)
    (hok : (w.CreatePostgresDatabase (n - 1) psqlInfo).2 = none)
    (hfuel : n - 1 ≤ fuel) :
    ∃ tr, getDB w log fuel =
        (tr, some (Outcome.Return (w.CreatePostgresDatabase (n - 1) psqlInfo).1)) ∧
      tr.filter Event.isCreatePostgresDatabase =
        List.replicate n (Event.CreatePostgresDatabase psqlInfo) ∧
      tr.filter Event.isSleep = List.replicate (n - 1) (Event.Sleep (5 * 1000000000)) ∧
      tr.filter Event.isAttemptOrSleep =
        Event.CreatePostgresDatabase psqlInfo ::
          (List.replicate (n - 1)
            [Event.Sleep (5 * 1000000000), Event.CreatePostgresDatabase psqlInfo]).flatten := by
  obtain ⟨tr, htr, hcreate, hsleep, hboth⟩ :=
    getDBLoop_connects w log psqlInfo (n - 1) fuel 0
      (fun k _ hk => hfail k (by omega)) (by simpa using hok) hfuel
  simp only [Nat.zero_add] at htr
  refine ⟨[Event.GetPsqlInfoFromEnv, Event.CreatePostgresDatabase psqlInfo] ++ tr
      ++ log.Info "Connected to Postgresql" [("posqlInfo", psqlInfo)], ?_, ?_, ?_, ?_⟩
  · simp only [getDB, hinfo, htr]
  · have hrep : List.replicate n (Event.CreatePostgresDatabase psqlInfo) =
        Event.CreatePostgresDatabase psqlInfo ::
          List.replicate (n - 1) (Event.CreatePostgresDatabase psqlInfo) := by
      rw [← List.replicate_succ]
      congr 1
      omega
    simp [List.filter_append, Logger.Info, log_filter_isCreatePostgresDatabase, hcreate,
      Event.isCreatePostgresDatabase, hrep]
  · have hd : reconnectDuration = 5 * 1000000000 := rfl
    simp [List.filter_append, Logger.Info, log_filter_isSleep, hsleep, Event.isSleep, hd]
  · have hd : reconnectDuration = 5 * 1000000000 := rfl
    have h1 : Event.isAttemptOrSleep Event.GetPsqlInfoFromEnv = false := rfl
    have h2 : Event.isAttemptOrSleep (Event.CreatePostgresDatabase psqlInfo) = true := rfl
    simp [List.filter_append, Logger.Info, log_filter_attempt_or_sleep, hboth, h1, h2, hd]

/-- Witness of C6: Postgres accepts the third attempt. -/
theorem getDB_retries_until_connected_witness :
    ∃ tr, getDB worldThirdAttempt getLogger.2 5 = (tr, some (Outcome.Return (some ⟨2⟩))) ∧
      tr.filter Event.isCreatePostgresDatabase =
        List.replicate 3 (Event.CreatePostgresDatabase "host=db port=5432") ∧
      tr.filter Event.isSleep = List.replicate 2 (Event.Sleep (5 * 1000000000)) ∧
      tr.filter Event.isAttemptOrSleep =
        Event.CreatePostgresDatabase "host=db port=5432" ::
          (List.replicate 2
            [Event.Sleep (5 * 1000000000),
             Event.CreatePostgresDatabase "host=db port=5432"]).flatten :=
  getDB_retries_until_connected worldThirdAttempt getLogger.2 "host=db port=5432" 3 5
    rfl (by decide) (fun k hk => by have hk2 : k < 2 := hk; simp [worldThirdAttempt, hk2])
    rfl (by decide)

/-- C9: when `db.GetPsqlInfoFromEnv` returns an error, `getDB` logs it and exits the
process with status 1; the trace holds no call of `db.CreatePostgresDatabase` and no
sleep, for every bound on the loop. -/
theorem getDB_exits_without_psqlInfo (w : World) (log : Logger) (fuel : Nat)
    (psqlInfo : String) (err : Error)
    (hinfo : w.GetPsqlInfoFromEnv w.Getenv = (psqlInfo, some err)) :
    getDB w log fuel =
        ([Event.GetPsqlInfoFromEnv] ++ log.Error "failed to get psqlInfo:" [("err", err)],
          some (Outcome.Exit 1)) ∧
      ([Event.GetPsqlInfoFromEnv] ++ log.Error "failed to get psqlInfo:" [("err", err)]).filter
        Event.isCreatePostgresDatabase = [] ∧
      ([Event.GetPsqlInfoFromEnv] ++ log.Error "failed to get psqlInfo:" [("err", err)]).filter
        Event.isSleep = [] := by
  refine ⟨?_, ?_, ?_⟩
  · simp only [getDB, hinfo]
  · simp [List.filter_append, Logger.Error, log_filter_isCreatePostgresDatabase,
      Event.isCreatePostgresDatabase]
  · simp [List.filter_append, Logger.Error, log_filter_isSleep, Event.isSleep]

/-- Witness of C9: the connection parameters are missing. -/
theorem getDB_exits_without_psqlInfo_witness :
    getDB worldNoPsqlInfo getLogger.2 7 =
      ([Event.GetPsqlInfoFromEnv,
        Event.Log LevelError "failed to get psqlInfo:" [("err", "POSTGRES_HOST is not set")]],
       some (Outcome.Exit 1)) :=
  (getDB_exits_without_psqlInfo worldNoPsqlInfo getLogger.2 7 "" "POSTGRES_HOST is not set"
    rfl).1

theorem mem_log_not_create (log : Logger) (level : Level) (msg : String)
    (attrs : List (String × String)) (info : String) :
    Event.CreatePostgresDatabase info ∉ log.log level msg attrs := by
  unfold Logger.log
  split <;> simp

/-- Every connection attempt of the loop of `getDB` is made with the `psqlInfo` the
loop was entered with, whether or not the loop has ended. -/
theorem getDBLoop_attempts_use_psqlInfo (w : World) (log : Logger) (psqlInfo : String) :
    ∀ (fuel calls : Nat) (res : Option SqlDB × Option Error) (info : String),
      Event.CreatePostgresDatabase info ∈ (getDBLoop w log psqlInfo fuel calls res).1 →
      info = psqlInfo := by
  intro fuel
  induction fuel with
  | zero =>
    intro calls res info hmem
    rcases res with ⟨dbc, _ | err⟩ <;> simp [getDBLoop] at hmem
  | succ fuel ih =>
    intro calls res info hmem
    rcases res with ⟨dbc, _ | err⟩
    · simp [getDBLoop] at hmem
    · simp only [getDBLoop, List.mem_append, List.mem_cons, List.mem_singleton,
        Event.CreatePostgresDatabase.injEq, List.not_mem_nil, or_false, Logger.Error,
        reduceCtorEq, false_or] at hmem
      rcases hmem with (hlog | heq) | hrest
      · exact absurd hlog (mem_log_not_create _ _ _ _ _)
      · exact heq
      · exact ih _ _ info hrest

/-- The trace of `getDB` starts with the call of `db.GetPsqlInfoFromEnv`; when the
parameters were obtained it holds a connection attempt, and every connection attempt in
it is made with the parameters that call returned. -/
theorem getDB_uses_psqlInfo (w : World) (log : Logger) (fuel : Nat) :
    (getDB w log fuel).1.head? = some Event.GetPsqlInfoFromEnv ∧
      ((w.GetPsqlInfoFromEnv w.Getenv).2 = none →
        Event.CreatePostgresDatabase (w.GetPsqlInfoFromEnv w.Getenv).1 ∈ (getDB w log fuel).1) ∧
      ∀ info, Event.CreatePostgresDatabase info ∈ (getDB w log fuel).1 →
        info = (w.GetPsqlInfoFromEnv w.Getenv).1 := by
  rcases hinfo : w.GetPsqlInfoFromEnv w.Getenv with ⟨psqlInfo, _ | err⟩
  · have hloop := getDBLoop_attempts_use_psqlInfo w log psqlInfo fuel 1
      (w.CreatePostgresDatabase 0 psqlInfo)
    rcases hl : getDBLoop w log psqlInfo fuel 1 (w.CreatePostgresDatabase 0 psqlInfo) with
      ⟨tr, _ | dbConnection⟩
    · rw [hl] at hloop
      have hg : getDB w log fuel =
          ([Event.GetPsqlInfoFromEnv, Event.CreatePostgresDatabase psqlInfo] ++ tr, none) := by
        simp only [getDB, hinfo, hl]
      rw [hg]
      refine ⟨rfl, fun _ => by simp, ?_⟩
      intro info hmem
      simp only [List.mem_append, List.mem_cons, List.mem_singleton, List.not_mem_nil, or_false,
        Event.CreatePostgresDatabase.injEq, reduceCtorEq, false_or] at hmem
      rcases hmem with heq | hrest
      · exact heq
      · exact hloop info hrest
    · rw [hl] at hloop
      have hg : getDB w log fuel =
          ([Event.GetPsqlInfoFromEnv, Event.CreatePostgresDatabase psqlInfo] ++ tr
              ++ log.Info "Connected to Postgresql" [("posqlInfo", psqlInfo)],
            some (Outcome.Return dbConnection)) := by
        simp only [getDB, hinfo, hl]
      rw [hg]
      refine ⟨rfl, fun _ => by simp, ?_⟩
      intro info hmem
      simp only [List.mem_append, List.mem_cons, List.mem_singleton, List.not_mem_nil, or_false,
        Event.CreatePostgresDatabase.injEq, reduceCtorEq, false_or, Logger.Info] at hmem
      rcases hmem with (heq | hrest) | hlog
      · exact heq
      · exact hloop info hrest
      · exact absurd hlog (mem_log_not_create _ _ _ _ _)
  · have hg : getDB w log fuel =
        ([Event.GetPsqlInfoFromEnv] ++ log.Error "failed to get psqlInfo:" [("err", err)],
          some (Outcome.Exit 1)) := by
      simp only [getDB, hinfo]
    rw [hg]
    refine ⟨rfl, fun h => by simp at h, ?_⟩
    intro info hmem
    simp only [List.mem_append, List.mem_singleton, reduceCtorEq, false_or, Logger.Error] at hmem
    exact absurd hmem (mem_log_not_create _ _ _ _ _)

/-! ## Configuration from the environment -/

/-- C7 as stated fails: in the empty environment `REDIS_ADDR` has the value `""`, and
the Redis client that `getRedisDB` builds and returns has the address
`"localhost:6379"`, so its `Addr` is not the value of `REDIS_ADDR`. -/
theorem getRedisDB_addr_not_from_environment :
    ∃ rdb, (getRedisDB worldEmptyEnvironment getLogger.2).2 = Outcome.Return rdb ∧
      rdb.opts.Addr ≠ worldEmptyEnvironment.Getenv "REDIS_ADDR" :=
  ⟨⟨⟨"localhost:6379", "", 0⟩⟩, rfl, by decide⟩

/-- C7, amended: `Run` starts the server once, on the address `":"` followed by the
value of `APP_PORT`; `getRedisDB` passes to `redis.NewClient` the options with `Addr`
the value of `REDIS_ADDR`, `Password` the value of `REDIS_PASSWORD` and `DB` 0, and the
client it builds, pings and returns has that password, `DB` 0, and as address the value
of `REDIS_ADDR` when that is not empty and `"localhost:6379"` when it is empty;
`getDB` calls `db.GetPsqlInfoFromEnv` first and passes the parameters it returned to
every call of `db.CreatePostgresDatabase`, for every bound on the loop and whether or
not a connection is ever made. -/
theorem configuration_from_environment (w : World) (log : Logger) (a : App) :
    (∀ address, Event.ServerStart address ∈ (App.Run w a).1 ↔
      address = ":" ++ w.Getenv "APP_PORT") ∧
    (∀ opts, Event.RedisNewClient opts ∈ (getRedisDB w log).1 ↔
      opts = ⟨w.Getenv "REDIS_ADDR", w.Getenv "REDIS_PASSWORD", 0⟩) ∧
    (∀ opts, Event.RedisPing opts ∈ (getRedisDB w log).1 ↔
      opts = ⟨if w.Getenv "REDIS_ADDR" = "" then "localhost:6379" else w.Getenv "REDIS_ADDR",
              w.Getenv "REDIS_PASSWORD", 0⟩) ∧
    (∀ rdb, (getRedisDB w log).2 = Outcome.Return rdb →
      rdb.opts =
        ⟨if w.Getenv "REDIS_ADDR" = "" then "localhost:6379" else w.Getenv "REDIS_ADDR",
         w.Getenv "REDIS_PASSWORD", 0⟩) ∧
    (∀ fuel,
      (getDB w log fuel).1.head? = some Event.GetPsqlInfoFromEnv ∧
      ((w.GetPsqlInfoFromEnv w.Getenv).2 = none →
        Event.CreatePostgresDatabase (w.GetPsqlInfoFromEnv w.Getenv).1 ∈
          (getDB w log fuel).1) ∧
      ∀ info, Event.CreatePostgresDatabase info ∈ (getDB w log fuel).1 →
        info = (w.GetPsqlInfoFromEnv w.Getenv).1) := by
  have hinit : (NewClient ⟨w.Getenv "REDIS_ADDR", w.Getenv "REDIS_PASSWORD", 0⟩).opts =
      ⟨if w.Getenv "REDIS_ADDR" = "" then "localhost:6379" else w.Getenv "REDIS_ADDR",
       w.Getenv "REDIS_PASSWORD", 0⟩ := by
    unfold NewClient RedisOptions.init
    split <;> rfl
  refine ⟨?_, ?_, ?_, ?_, fun fuel => getDB_uses_psqlInfo w log fuel⟩
  · intro address
    cases hs : w.Start (":" ++ w.Getenv "APP_PORT") <;> simp [App.Run, hs]
  · intro opts
    have hlog : ∀ (level : Level) (msg : String) (attrs : List (String × String)),
        Event.RedisNewClient opts ∉ log.log level msg attrs := by
      intro level msg attrs
      unfold Logger.log
      split <;> simp
    cases hp : (w.Ping (NewClient ⟨w.Getenv "REDIS_ADDR", w.Getenv "REDIS_PASSWORD", 0⟩).opts).2 <;>
      simp [getRedisDB, hp, Logger.Error, Logger.Info, hlog]
  · intro opts
    have hlog : ∀ (level : Level) (msg : String) (attrs : List (String × String)),
        Event.RedisPing opts ∉ log.log level msg attrs := by
      intro level msg attrs
      unfold Logger.log
      split <;> simp
    rw [← hinit]
    cases hp : (w.Ping (NewClient ⟨w.Getenv "REDIS_ADDR", w.Getenv "REDIS_PASSWORD", 0⟩).opts).2 <;>
      simp [getRedisDB, hp, Logger.Error, Logger.Info, hlog]
  · intro rdb h
    rw [← hinit]
    cases hp : (w.Ping (NewClient ⟨w.Getenv "REDIS_ADDR", w.Getenv "REDIS_PASSWORD", 0⟩).opts).2 <;>
      simp [getRedisDB, hp] at h
    rw [← h]

/-- Witness of C7, amended: port 8080 and a local Redis with a password; an empty
environment, where the client gets the default address; and a Postgres that refuses
every attempt, all made with the parameters from the environment. -/
theorem configuration_from_environment_witness :
    Event.ServerStart ":8080" ∈
        (App.Run worldThirdAttempt
          ⟨getLogger.2, none, ⟨⟨"localhost:6379", "secret", 0⟩⟩, echoNew⟩).1 ∧
      Event.RedisPing ⟨"localhost:6379", "", 0⟩ ∈
        (getRedisDB worldEmptyEnvironment getLogger.2).1 ∧
      Event.CreatePostgresDatabase "host=db port=5432" ∈
        (getDB worldNoPostgres getLogger.2 2).1 :=
  ⟨((configuration_from_environment worldThirdAttempt getLogger.2
        ⟨getLogger.2, none, ⟨⟨"localhost:6379", "secret", 0⟩⟩, echoNew⟩).1 ":8080").2 rfl,
   ((configuration_from_environment worldEmptyEnvironment getLogger.2
        ⟨getLogger.2, none, ⟨⟨"localhost:6379", "", 0⟩⟩, echoNew⟩).2.2.1
      ⟨"localhost:6379", "", 0⟩).2 rfl,
   ((configuration_from_environment worldNoPostgres getLogger.2
        ⟨getLogger.2, none, ⟨⟨"localhost:6379", "secret", 0⟩⟩, echoNew⟩).2.2.2.2 2).2.1 rfl⟩

/-! ## `getRedisDB` -/

/-- C8: `getRedisDB` pings Redis exactly once, on the client it built from the
environment.  When the ping returns an error the process exits with status 1 and no
client is returned; when the ping succeeds the client it built is returned. -/
theorem getRedisDB_pings_once (w : World) (log : Logger) :
    (getRedisDB w log).1.filter Event.isRedisPing =
        [Event.RedisPing
          (NewClient ⟨w.Getenv "REDIS_ADDR", w.Getenv "REDIS_PASSWORD", 0⟩).opts] ∧
      (∀ err,
        (w.Ping (NewClient ⟨w.Getenv "REDIS_ADDR", w.Getenv "REDIS_PASSWORD", 0⟩).opts).2 =
            some err →
          (getRedisDB w log).2 = Outcome.Exit 1) ∧
      ((w.Ping (NewClient ⟨w.Getenv "REDIS_ADDR", w.Getenv "REDIS_PASSWORD", 0⟩).opts).2 =
          none →
        (getRedisDB w log).2 =
          Outcome.Return (NewClient ⟨w.Getenv "REDIS_ADDR", w.Getenv "REDIS_PASSWORD", 0⟩)) := by
  refine ⟨?_, ?_, ?_⟩
  · have hlog : ∀ (level : Level) (msg : String) (attrs : List (String × String)),
        (log.log level msg attrs).filter Event.isRedisPing = [] := by
      intro level msg attrs
      unfold Logger.log
      split <;> rfl
    cases hp : (w.Ping (NewClient ⟨w.Getenv "REDIS_ADDR", w.Getenv "REDIS_PASSWORD", 0⟩).opts).2 <;>
      simp [getRedisDB, hp, List.filter_append, Logger.Error, Logger.Info, hlog,
        Event.isRedisPing]
  · intro err h
    simp [getRedisDB, h]
  · intro h
    simp [getRedisDB, h]

/-- Witness of C8: Redis does not answer, and the process exits with status 1. -/
theorem getRedisDB_pings_once_witness :
    (getRedisDB worldNoRedis getLogger.2).2 = Outcome.Exit 1 :=
  (getRedisDB_pings_once worldNoRedis getLogger.2).2.1 "dial tcp: connection refused" rfl

/-! ## `NewApp` -/

/-- The loop of `getDB` is still running after `fuel` iterations exactly when the
calls `c, ..., c + fuel` of `db.CreatePostgresDatabase` all fail. -/
theorem getDBLoop_eq_none_iff (w : World) (log : Logger) (psqlInfo : String) :
    ∀ (fuel c : Nat),
      (getDBLoop w log psqlInfo fuel (c + 1) (w.CreatePostgresDatabase c psqlInfo)).2 = none ↔
        ∀ k, c ≤ k → k ≤ c + fuel → (w.CreatePostgresDatabase k psqlInfo).2 ≠ none := by
  intro fuel
  induction fuel with
  | zero =>
    intro c
    rcases hres : w.CreatePostgresDatabase c psqlInfo with ⟨dbc, _ | err⟩
    · simp only [getDBLoop, reduceCtorEq, false_iff]
      intro h
      have := h c (Nat.le_refl c) (Nat.le_refl c)
      simp [hres] at this
    · simp only [getDBLoop, true_iff]
      intro k hk1 hk2
      have hk : k = c := by omega
      subst hk
      simp [hres]
  | succ fuel ih =>
    intro c
    rcases hres : w.CreatePostgresDatabase c psqlInfo with ⟨dbc, _ | err⟩
    · simp only [getDBLoop, reduceCtorEq, false_iff]
      intro h
      have := h c (Nat.le_refl c) (by omega)
      simp [hres] at this
    · simp only [getDBLoop]
      rw [ih (c + 1)]
      constructor
      · intro h k hk1 hk2
        rcases Nat.eq_or_lt_of_le hk1 with hk | hk
        · subst hk
          simp [hres]
        · exact h k hk (by omega)
      · intro h k hk1 hk2
        exact h k (by omega) (by omega)

/-- How `getDB` ends when it ends: it returns after the connection parameters were
obtained, or exits with status 1 after they were not. -/
theorem getDB_outcome (w : World) (log : Logger) (fuel : Nat)
    (out : Outcome (Option SqlDB)) (h : (getDB w log fuel).2 = some out) :
    (∃ dbCon, out = Outcome.Return dbCon ∧ (w.GetPsqlInfoFromEnv w.Getenv).2 = none) ∨
      (out = Outcome.Exit 1 ∧ ∃ err, (w.GetPsqlInfoFromEnv w.Getenv).2 = some err) := by
  rcases hinfo : w.GetPsqlInfoFromEnv w.Getenv with ⟨psqlInfo, _ | err⟩
  · rcases hl : getDBLoop w log psqlInfo fuel 1 (w.CreatePostgresDatabase 0 psqlInfo) with
      ⟨tr, _ | dbConnection⟩
    · simp [getDB, hinfo, hl] at h
    · simp only [getDB, hinfo, hl, Option.some.injEq] at h
      exact Or.inl ⟨dbConnection, h.symm, rfl⟩
  · simp only [getDB, hinfo, Option.some.injEq] at h
    exact Or.inr ⟨h.symm, err, rfl⟩

theorem getDB_eq_none_iff (w : World) (log : Logger) (fuel : Nat) :
    (getDB w log fuel).2 = none ↔
      (w.GetPsqlInfoFromEnv w.Getenv).2 = none ∧
      ∀ k, k ≤ fuel →
        (w.CreatePostgresDatabase k (w.GetPsqlInfoFromEnv w.Getenv).1).2 ≠ none := by
  rcases hinfo : w.GetPsqlInfoFromEnv w.Getenv with ⟨psqlInfo, _ | err⟩
  · have hiff := getDBLoop_eq_none_iff w log psqlInfo fuel 0
    simp only [Nat.zero_add] at hiff
    rcases hl : getDBLoop w log psqlInfo fuel 1 (w.CreatePostgresDatabase 0 psqlInfo) with
      ⟨tr, _ | dbConnection⟩
    · rw [hl] at hiff
      simp only [getDB, hinfo, hl, true_and, true_iff]
      intro k hk
      exact (hiff.1 rfl) k (Nat.zero_le k) hk
    · rw [hl] at hiff
      simp only [getDB, hinfo, hl, reduceCtorEq, true_and, false_iff]
      intro h
      have hnone := hiff.2 (fun k _ hk => h k hk)
      simp at hnone
  · simp [getDB, hinfo]

theorem getRedisDB_outcome (w : World) (log : Logger) :
    (∃ rdb, (getRedisDB w log).2 = Outcome.Return rdb) ∨
      ((getRedisDB w log).2 = Outcome.Exit 1 ∧
        ∃ err,
          (w.Ping (NewClient ⟨w.Getenv "REDIS_ADDR", w.Getenv "REDIS_PASSWORD", 0⟩).opts).2 =
            some err) := by
  cases hp : (w.Ping (NewClient ⟨w.Getenv "REDIS_ADDR", w.Getenv "REDIS_PASSWORD", 0⟩).opts).2 <;>
    simp [getRedisDB, hp]

theorem newTemplate_outcome (w : World) :
    (∃ templates, (newTemplate w).2 = Outcome.Return templates) ∨
      ∃ err, (newTemplate w).2 = Outcome.Panic err ∧
        (w.ParseGlob "./templates/**/*.html").2 = some err := by
  unfold newTemplate
  rcases hp : w.ParseGlob "./templates/**/*.html" with ⟨tmpl, _ | err⟩ <;> simp

theorem NewApp_eq (w : World) (fuel : Nat) :
    NewApp w fuel =
      andThen (getLogger.1 ++ (getDB w getLogger.2 fuel).1, (getDB w getLogger.2 fuel).2)
        fun dbCon =>
          andThen (ended (getRedisDB w getLogger.2)) fun rdb =>
            andThen (ended (newTemplate w)) fun templates =>
              ([Event.EchoNew],
                some (Outcome.Return
                  ({ log := getLogger.2, db := dbCon, rdb := rdb,
                     server := getServer templates getLogger.2 dbCon rdb }, none))) := by
  rfl

/-- C10: `NewApp` never reports an error.  Whenever it returns, the error result is
nil, the returned `App` holds the logger, the Postgres connection, the Redis client and
the server built from them, and the trace is that of `getLogger`, then `getDB`, then
`getRedisDB`, then `newTemplate`, then the construction of the server.  Every other
end of `NewApp` is a process exit with status 1 (connection parameters missing, or
Redis not answering), a panic (the templates do not parse), or a retry loop that is
still running because every connection attempt so far has failed. -/
theorem NewApp_never_reports_error (w : World) (fuel : Nat) :
    (∀ tr a err, NewApp w fuel = (tr, some (Outcome.Return (a, err))) →
      err = none ∧
      ∃ trDB dbCon trRedis rdb trTmpl templates,
        getDB w getLogger.2 fuel = (trDB, some (Outcome.Return dbCon)) ∧
        getRedisDB w getLogger.2 = (trRedis, Outcome.Return rdb) ∧
        newTemplate w = (trTmpl, Outcome.Return templates) ∧
        a = ⟨getLogger.2, dbCon, rdb, getServer templates getLogger.2 dbCon rdb⟩ ∧
        tr = getLogger.1 ++ trDB ++ trRedis ++ trTmpl ++ [Event.EchoNew]) ∧
    (∀ tr code, NewApp w fuel = (tr, some (Outcome.Exit code)) →
      code = 1 ∧
      ((∃ e, (w.GetPsqlInfoFromEnv w.Getenv).2 = some e) ∨
        ∃ e,
          (w.Ping (NewClient ⟨w.Getenv "REDIS_ADDR", w.Getenv "REDIS_PASSWORD", 0⟩).opts).2 =
            some e)) ∧
    (∀ tr e, NewApp w fuel = (tr, some (Outcome.Panic e)) →
      (w.ParseGlob "./templates/**/*.html").2 = some e) ∧
    ((NewApp w fuel).2 = none ↔
      (w.GetPsqlInfoFromEnv w.Getenv).2 = none ∧
      ∀ k, k ≤ fuel →
        (w.CreatePostgresDatabase k (w.GetPsqlInfoFromEnv w.Getenv).1).2 ≠ none) := by
  rw [NewApp_eq]
  rcases hdb : getDB w getLogger.2 fuel with ⟨trDB, _ | out⟩
  · refine ⟨by simp [andThen], by simp [andThen], by simp [andThen], ?_⟩
    have hnone := (getDB_eq_none_iff w getLogger.2 fuel).1 (by rw [hdb])
    simpa [andThen] using hnone
  · have hnot : ¬((w.GetPsqlInfoFromEnv w.Getenv).2 = none ∧
        ∀ k, k ≤ fuel →
          (w.CreatePostgresDatabase k (w.GetPsqlInfoFromEnv w.Getenv).1).2 ≠ none) := by
      intro h
      have hnone := (getDB_eq_none_iff w getLogger.2 fuel).2 h
      rw [hdb] at hnone
      exact absurd hnone (by simp)
    rcases getDB_outcome w getLogger.2 fuel out (by rw [hdb]) with
      ⟨dbCon, rfl, _⟩ | ⟨rfl, e, hinfo⟩
    · rcases hr : getRedisDB w getLogger.2 with ⟨trRedis, outRedis⟩
      rcases getRedisDB_outcome w getLogger.2 with ⟨rdb, hrdb⟩ | ⟨hexit, e, hping⟩
      · rw [hr] at hrdb
        simp only at hrdb
        subst hrdb
        rcases ht : newTemplate w with ⟨trTmpl, outTmpl⟩
        rcases newTemplate_outcome w with ⟨templates, htmpl⟩ | ⟨e, hpanic, hparse⟩
        · rw [ht] at htmpl
          simp only at htmpl
          subst htmpl
          refine ⟨?_, by simp [andThen, ended], by simp [andThen, ended],
            by simpa [andThen, ended] using hnot⟩
          intro tr a err h
          simp only [andThen, ended, Prod.mk.injEq, Option.some.injEq,
            Outcome.Return.injEq] at h
          obtain ⟨htr, ha, herr⟩ := h
          refine ⟨herr.symm, trDB, dbCon, trRedis, rdb, trTmpl, templates, rfl, rfl, rfl,
            ha.symm, ?_⟩
          rw [← htr]
          simp [List.append_assoc]
        · rw [ht] at hpanic
          simp only at hpanic
          subst hpanic
          refine ⟨by simp [andThen, ended], by simp [andThen, ended], ?_,
            by simpa [andThen, ended] using hnot⟩
          intro tr e1 h
          simp only [andThen, ended, Prod.mk.injEq, Option.some.injEq,
            Outcome.Panic.injEq] at h
          rw [← h.2]
          exact hparse
      · rw [hr] at hexit
        simp only at hexit
        subst hexit
        refine ⟨by simp [andThen, ended], ?_, by simp [andThen, ended],
          by simpa [andThen, ended] using hnot⟩
        intro tr code h
        simp only [andThen, ended, Prod.mk.injEq, Option.some.injEq,
          Outcome.Exit.injEq] at h
        exact ⟨h.2.symm, Or.inr ⟨e, hping⟩⟩
    · refine ⟨by simp [andThen], ?_, by simp [andThen], by simpa [andThen] using hnot⟩
      intro tr code h
      simp only [andThen, Prod.mk.injEq, Option.some.injEq, Outcome.Exit.injEq] at h
      exact ⟨h.2.symm, Or.inl ⟨e, hinfo⟩⟩

/-- Witness of C10: with Postgres accepting the third attempt, `NewApp` returns an
`App` and a nil error. -/
theorem NewApp_never_reports_error_witness :
    ∃ tr a, NewApp worldThirdAttempt 2 = (tr, some (Outcome.Return (a, none))) ∧
      ∃ trDB dbCon trRedis rdb trTmpl templates,
        getDB worldThirdAttempt getLogger.2 2 = (trDB, some (Outcome.Return dbCon)) ∧
        getRedisDB worldThirdAttempt getLogger.2 = (trRedis, Outcome.Return rdb) ∧
        newTemplate worldThirdAttempt = (trTmpl, Outcome.Return templates) ∧
        a = ⟨getLogger.2, dbCon, rdb, getServer templates getLogger.2 dbCon rdb⟩ ∧
        tr = getLogger.1 ++ trDB ++ trRedis ++ trTmpl ++ [Event.EchoNew] :=
  ⟨_, _, rfl, ((NewApp_never_reports_error worldThirdAttempt 2).1 _ _ none rfl).2⟩

/-! ## The authorization check on the routes of the auth-required group -/

/-- A request whose session resolves is passed on with the user attached. -/
theorem AuthorizationCheckMiddleware_forwards (sessionStorage : SessionStore)
    (kv : KeyValueStore) (c : Context) (token : String)
    (userID : Nat) (hcookie : c.cookie = some token)
    (hresolve : Resolve sessionStorage kv token = some userID) :
    AuthorizationCheckMiddleware sessionStorage kv c =
      Decision.Next { c with user := some userID } id := by
  simp [AuthorizationCheckMiddleware, hcookie, hresolve]

/-- A request without a cookie, or with a token that does not resolve, is answered by
the authorization check with a redirect to login. -/
theorem AuthorizationCheckMiddleware_redirects (sessionStorage : SessionStore)
    (kv : KeyValueStore) (c : Context)
    (hunauth : c.cookie = none ∨
      ∃ token, c.cookie = some token ∧ Resolve sessionStorage kv token = none) :
    AuthorizationCheckMiddleware sessionStorage kv c =
      Decision.Respond (Response.Redirect "/login") := by
  rcases hunauth with hnone | ⟨token, hsome, hres⟩
  · simp [AuthorizationCheckMiddleware, hnone]
  · simp [AuthorizationCheckMiddleware, hsome, hres]

/-- C5: take a route of the table of `getServer` that carries the middleware of the
auth-required group, and a request whose session cookie is absent or whose token does
not resolve to a user, served through logger and metrics middleware that leave the
cookie as it is.  Then the trace of serving the request holds no invocation of a
handler; whenever the authorization middleware is entered it answers with a redirect to
`/login`; and when the outer middleware pass the request on unchanged, the trace is
logger, metrics, authorization check and the response is that redirect. -/
theorem authorization_redirects_unauthenticated (templates : Templates) (log : Logger)
    (dbCon : Option SqlDB) (rdb : RedisClient)
    (other : MiddlewareFunc → Context → Decision)
    (impl : HandlerFunc → Context → Response) (kv : KeyValueStore) (r : Route) (c : Context)
    (_hr : r ∈ (getServer templates log dbCon rdb).routes)
    (hgroup : r.middleware =
      (getServerSetup templates log dbCon rdb).authRequiredBaseGroup.middleware)
    (hcookie : ∀ m ctx ctx1 after, other m ctx = Decision.Next ctx1 after →
      ctx1.cookie = ctx.cookie)
    (hunauth : c.cookie = none ∨
      ∃ token, c.cookie = some token ∧ Resolve ⟨rdb⟩ kv token = none) :
    (∀ h ctx, ServeEvent.Handler h ctx ∉
        ((getServer templates log dbCon rdb).serve other impl kv r c).1) ∧
      (∀ ctx, ServeEvent.Middleware (MiddlewareFunc.AuthorizationCheckMiddleware ⟨rdb⟩ log) ctx ∈
          ((getServer templates log dbCon rdb).serve other impl kv r c).1 →
        MiddlewareFunc.run other kv (MiddlewareFunc.AuthorizationCheckMiddleware ⟨rdb⟩ log) ctx =
          Decision.Respond (Response.Redirect "/login")) ∧
      ((∀ m ctx, other m ctx = Decision.Next ctx id) →
        (getServer templates log dbCon rdb).serve other impl kv r c =
          ([ServeEvent.Middleware (MiddlewareFunc.NewLoggerMiddleware log) c,
            ServeEvent.Middleware (MiddlewareFunc.echoprometheusNewMiddleware "myapp") c,
            ServeEvent.Middleware (MiddlewareFunc.AuthorizationCheckMiddleware ⟨rdb⟩ log) c],
           Response.Redirect "/login")) := by
  have hredirect : ∀ ctx, ctx.cookie = c.cookie →
      AuthorizationCheckMiddleware ⟨rdb⟩ kv ctx =
        Decision.Respond (Response.Redirect "/login") := by
    intro ctx hctx
    apply AuthorizationCheckMiddleware_redirects
    rw [hctx]
    exact hunauth
  have hserve : (getServer templates log dbCon rdb).serve other impl kv r c =
      applyMiddleware (MiddlewareFunc.run other kv) impl r.handler
        [MiddlewareFunc.NewLoggerMiddleware log,
         MiddlewareFunc.echoprometheusNewMiddleware "myapp",
         MiddlewareFunc.AuthorizationCheckMiddleware ⟨rdb⟩ log] c := by
    simp only [Echo.serve, Echo.chain, getServer_middleware, hgroup,
      getServerSetup_authRequiredBaseGroup]
    rfl
  rw [hserve]
  refine ⟨?_, ?_, ?_⟩
  · intro h ctx
    simp only [applyMiddleware, MiddlewareFunc.run]
    cases h1 : other (MiddlewareFunc.NewLoggerMiddleware log) c with
    | Respond r1 => simp
    | Next c1 a1 =>
      have hc1 := hcookie _ _ _ _ h1
      cases h2 : other (MiddlewareFunc.echoprometheusNewMiddleware "myapp") c1 with
      | Respond r2 => simp [h2]
      | Next c2 a2 =>
        have hc2 := hcookie _ _ _ _ h2
        simp [h2, hredirect c2 (hc2.trans hc1)]
  · intro ctx
    simp only [applyMiddleware, MiddlewareFunc.run]
    cases h1 : other (MiddlewareFunc.NewLoggerMiddleware log) c with
    | Respond r1 => simp
    | Next c1 a1 =>
      have hc1 := hcookie _ _ _ _ h1
      cases h2 : other (MiddlewareFunc.echoprometheusNewMiddleware "myapp") c1 with
      | Respond r2 => simp [h2]
      | Next c2 a2 =>
        have hc2 := hcookie _ _ _ _ h2
        simp only [h2, hredirect c2 (hc2.trans hc1), List.mem_cons, ServeEvent.Middleware.injEq,
          reduceCtorEq, false_and, List.mem_singleton, true_and, false_or, List.not_mem_nil,
          or_false]
        intro hctx
        rw [hctx]
        exact hredirect c2 (hc2.trans hc1)
  · intro hpass
    simp only [applyMiddleware, MiddlewareFunc.run, hpass, hredirect c rfl, id]

/-- Witness of C5: a request to GET / with the cookie of an expired session, through
outer middleware that pass requests on unchanged; the trace ends at the authorization
check, no handler is invoked, and the response is the redirect. -/
theorem authorization_redirects_unauthenticated_witness :
    (getServer ⟨none⟩ getLogger.2 (some ⟨1⟩) ⟨⟨"localhost:6379", "", 0⟩⟩).serve
        (fun _ ctx => Decision.Next ctx id) (fun _ _ => Response.Content 200 "tasks")
        storeWithExpiredSession
        ⟨"GET", "/",
          HandlerFunc.BaseHandler ⟨⟨⟨"localhost:6379", "", 0⟩⟩⟩ ⟨getLogger.2, some ⟨1⟩⟩
            getLogger.2,
          [MiddlewareFunc.echoprometheusNewMiddleware "myapp",
           MiddlewareFunc.AuthorizationCheckMiddleware ⟨⟨⟨"localhost:6379", "", 0⟩⟩⟩
             getLogger.2]⟩
        ⟨some "old-token", none⟩ =
      ([ServeEvent.Middleware (MiddlewareFunc.NewLoggerMiddleware getLogger.2)
          ⟨some "old-token", none⟩,
        ServeEvent.Middleware (MiddlewareFunc.echoprometheusNewMiddleware "myapp")
          ⟨some "old-token", none⟩,
        ServeEvent.Middleware
          (MiddlewareFunc.AuthorizationCheckMiddleware ⟨⟨⟨"localhost:6379", "", 0⟩⟩⟩ getLogger.2)
          ⟨some "old-token", none⟩],
       Response.Redirect "/login") :=
  (authorization_redirects_unauthenticated ⟨none⟩ getLogger.2 (some ⟨1⟩)
    ⟨⟨"localhost:6379", "", 0⟩⟩ (fun _ ctx => Decision.Next ctx id)
    (fun _ _ => Response.Content 200 "tasks")
    storeWithExpiredSession _ ⟨some "old-token", none⟩
    (by simp [getServer_routes]) rfl
    (fun _ _ _ _ h => by cases h; rfl)
    (Or.inr ⟨"old-token", rfl, by decide⟩)).2.2 (fun _ _ => rfl)

end app
